import Mathlib

/-!
Shallow embedding of `night_sky_perceptions.py` (NightSkyPerceptions).

Coordinates, depths and speeds are Python floats; they are embedded as
rationals.  Every call to the random number generator is made an explicit
input: `SkyObject.update` takes the depth perturbation draw, construction
takes an `InitDraws` record, and the spawner takes streams of type choices
and construction draws.  The spawn loop, which the source runs without a
termination guard, is embedded with explicit fuel: `none` means the loop
is still running when the fuel runs out (the source has no error path at
all, so the embedding has no error constructor either).
-/

/-- Canvas width from the source (`WIDTH, HEIGHT = 1000, 700`). -/
def WIDTH : ℚ := 1000

/-- Canvas height from the source. -/
def HEIGHT : ℚ := 700

/-- `MAX_OBJECTS = 7` from the source. -/
def MAX_OBJECTS : ℕ := 7

/-- `MAX_PER_TYPE = 4` from the source. -/
def MAX_PER_TYPE : ℕ := 4

/-- `SLIDER_X = 200` from the source. -/
def SLIDER_X : ℚ := 200

/-- `SLIDER_W = 600` from the source. -/
def SLIDER_W : ℚ := 600

/-- Python `int()` truncation toward zero, on a rational. -/
def pyInt (q : ℚ) : ℤ := if 0 ≤ q then ⌊q⌋ else ⌈q⌉

/-- The two view modes (`VIEW_MODE` is "PLAN" or "GROUND"). -/
inductive ViewMode
  | PLAN
  | GROUND
  deriving DecidableEq

/-- The two directions (`DIRECTION` is "EAST" or "WEST"). -/
inductive Direction
  | EAST
  | WEST
  deriving DecidableEq

/-- Base colors of the five object types, in source order:
Plane, Helicopter, Satellite, Meteor, Rare. -/
def typeColor : Fin 5 → ℕ × ℕ × ℕ :=
  ![(255, 0, 0), (0, 0, 255), (255, 255, 255), (255, 255, 150), (150, 0, 150)]

/-- Spawn weights (`prob`) of the five object types, in source order. -/
def typeProb : Fin 5 → ℕ := ![30, 20, 20, 20, 10]

/-- `MOVEMENT_DIST = [35, 25, 10, 15, 15]`, indexing `MOVEMENT_TYPES`. -/
def MOVEMENT_DIST : Fin 5 → ℕ := ![35, 25, 10, 15, 15]

/-- The random draws consumed by `SkyObject.__init__`: position, depth,
scalar speed, movement choice, and the cosine/sine of the heading angle. -/
structure InitDraws where
  x0 : ℚ
  y0 : ℚ
  z0 : ℚ
  speed0 : ℚ
  mov : Fin 5
  cosA : ℚ
  sinA : ℚ
  deriving DecidableEq

/-- The state of one `SkyObject`. -/
structure SkyObject where
  id : ℕ
  otype : Fin 5
  base_color : ℕ × ℕ × ℕ
  x : ℚ
  y : ℚ
  z : ℚ
  trail : List (ℚ × ℚ)
  speed : ℚ
  movement : Fin 5
  vx : ℚ
  vy : ℚ
  deriving DecidableEq

/-- `SkyObject.__init__(oid, otype)` with its random draws made explicit:
`vx = cos(angle) * speed`, `vy = sin(angle) * speed`, trail starts empty. -/
def SkyObject.init (oid : ℕ) (t : Fin 5) (d : InitDraws) : SkyObject :=
  { id := oid
    otype := t
    base_color := typeColor t
    x := d.x0
    y := d.y0
    z := d.z0
    trail := []
    speed := d.speed0
    movement := d.mov
    vx := d.cosA * d.speed0
    vy := d.sinA * d.speed0 }

/-- `SkyObject.update`: advance the position by velocity times the speed
multiplier `s`, random-walk the depth by the draw `dz` clamped to
`[0, 100]`, append the advanced position to the trail and pop the oldest
entry past 10, then snap each out-of-range coordinate to the opposite
edge (the two `if`s per axis run in source order). -/
def SkyObject.update (o : SkyObject) (s dz : ℚ) : SkyObject :=
  let x1 := o.x + o.vx * s
  let y1 := o.y + o.vy * s
  let z1 := max 0 (min 100 (o.z + dz))
  let t1 := o.trail ++ [(x1, y1)]
  let t2 := if t1.length > 10 then t1.tail else t1
  let x2 := if x1 < 0 then WIDTH else x1
  let x3 := if x2 > WIDTH then 0 else x2
  let y2 := if y1 < 0 then HEIGHT else y1
  let y3 := if y2 > HEIGHT then 0 else y2
  { o with x := x3, y := y3, z := z1, trail := t2 }

/-- A finite sequence of `update` calls; each step carries the speed
multiplier in force and the depth draw for that frame. -/
def SkyObject.updateSeq (o : SkyObject) : List (ℚ × ℚ) → SkyObject
  | [] => o
  | (s, dz) :: rest => (o.update s dz).updateSeq rest

/-- One channel of the depth-attenuated display color:
`min(255, int(c + (1 - z/100) * 80))`. -/
def displayChannel (c : ℕ) (z : ℚ) : ℤ :=
  min 255 (pyInt ((c : ℚ) + (1 - z / 100) * 80))

/-- The full depth-attenuated display color, per channel. -/
def displayColor (b : ℕ × ℕ × ℕ) (z : ℚ) : ℤ × ℤ × ℤ :=
  (displayChannel b.1 z, displayChannel b.2.1 z, displayChannel b.2.2 z)

/-- GROUND-mode horizontal screen coordinate:
`gx = x if DIRECTION == "EAST" else WIDTH - x`. -/
def groundSX : Direction → ℚ → ℚ
  | Direction.EAST, x => x
  | Direction.WEST, x => WIDTH - x

/-- The draw calls one `SkyObject.draw` issues: the marker color and
center, the polyline points when drawn (PLAN mode only), and the id
label position. -/
structure RenderOut where
  color : ℤ × ℤ × ℤ
  circleCenter : ℤ × ℤ
  trailLine : Option (List (ℚ × ℚ))
  labelPos : ℚ × ℚ
  deriving DecidableEq

/-- `SkyObject.draw`: compute the attenuated color and the draw calls for
the current view mode.  The Python method could mutate `self`; the
embedding returns the object alongside, and it is returned unchanged
because the source assigns no field. -/
def SkyObject.draw (o : SkyObject) (vm : ViewMode) (dir : Direction) :
    RenderOut × SkyObject :=
  let c := displayColor o.base_color o.z
  match vm with
  | ViewMode.PLAN =>
      ({ color := c
         circleCenter := (pyInt o.x, pyInt o.y)
         trailLine := some o.trail
         labelPos := (o.x + 8, o.y - 8) }, o)
  | ViewMode.GROUND =>
      let gx := groundSX dir o.x
      let gy := HEIGHT - o.z * 5
      ({ color := c
         circleCenter := (pyInt gx, pyInt gy)
         trailLine := none
         labelPos := (gx + 8, gy - 8) }, o)

/-- Toggling `DIRECTION` as the direction button does. -/
def toggleDirection : Direction → Direction
  | Direction.EAST => Direction.WEST
  | Direction.WEST => Direction.EAST

/-- Generic clamp, as the spec writes it: `clamp(q, lo, hi)`. -/
def clamp (lo hi q : ℚ) : ℚ := max lo (min hi q)

/-- The slider-drag handler for pointer abscissa `mx`:
`r = (mx - SLIDER_X) / SLIDER_W`, clamped to `[0, 1]`, then
`SPEED_MULTIPLIER = 0.5 + r * 2.5`. -/
def sliderSpeed (mx : ℚ) : ℚ :=
  let r := (mx - SLIDER_X) / SLIDER_W
  let r2 := max 0 (min 1 r)
  1 / 2 + r2 * (5 / 2)

/-- The body of `spawn_objects`, with explicit fuel.  `choices step` is
the weighted type draw of iteration `step` (all weights are positive, so
any type can be drawn); `inits n` holds the construction draws of the
`n`-th accepted object.  `none` means the fuel ran out with the
population still short — the source has no termination guard and no
error path, so the embedding has no error constructor. -/
def spawnLoop (total cap : ℕ) (choices : ℕ → Fin 5) (inits : ℕ → InitDraws) :
    ℕ → List SkyObject → (Fin 5 → ℕ) → ℕ → ℕ → Option (List SkyObject)
  | 0, objs, _, _, _ =>
      if objs.length < total then none else some objs
  | fuel + 1, objs, counts, oid, step =>
      if objs.length < total then
        let c := choices step
        if counts c < cap then
          spawnLoop total cap choices inits fuel
            (objs ++ [SkyObject.init oid c (inits objs.length)])
            (fun t => if t = c then counts t + 1 else counts t)
            (oid + 1) (step + 1)
        else
          spawnLoop total cap choices inits fuel objs counts oid (step + 1)
      else some objs

/-- `spawn_objects`, parametrized by the configuration constants
(`MAX_OBJECTS`, `MAX_PER_TYPE` in the source) and the draw streams:
start from the empty population, all counts zero, next id 1. -/
def spawn_objects (total cap : ℕ) (choices : ℕ → Fin 5)
    (inits : ℕ → InitDraws) (fuel : ℕ) : Option (List SkyObject) :=
  spawnLoop total cap choices inits fuel [] (fun _ => 0) 1 0

/-- How many objects of type `t` a population holds. -/
def countType (t : Fin 5) (objs : List SkyObject) : ℕ :=
  objs.countP (fun o => o.otype = t)

/-- A concrete choice stream for evaluation: cycle through the types. -/
def wChoices : ℕ → Fin 5 := fun n => ⟨n % 5, Nat.mod_lt n (by norm_num)⟩

/-- Concrete construction draws for evaluation. -/
def wInits : ℕ → InitDraws := fun _ =>
  { x0 := 0, y0 := 0, z0 := 50, speed0 := 1, mov := 0, cosA := 1, sinA := 0 }

/-- The population the cycling streams produce with fuel 7: the first
seven draws are the types 0, 1, 2, 3, 4, 0, 1, all below the cap. -/
def wObjs : List SkyObject :=
  [SkyObject.init 1 0 (wInits 0), SkyObject.init 2 1 (wInits 1),
   SkyObject.init 3 2 (wInits 2), SkyObject.init 4 3 (wInits 3),
   SkyObject.init 5 4 (wInits 4), SkyObject.init 6 0 (wInits 5),
   SkyObject.init 7 1 (wInits 6)]

/-- A concrete object near the top-right corner, moving toward it, for
evaluating the boundary snap. -/
def wSnap : SkyObject :=
  { id := 1, otype := 0, base_color := (255, 0, 0), x := 999, y := 699, z := 50,
    trail := [], speed := 2, movement := 0, vx := 2, vy := 2 }

/-! Projections of `SkyObject.update`, read off the definition. -/

theorem update_x_eq (o : SkyObject) (s dz : ℚ) :
    (o.update s dz).x =
      (if (if o.x + o.vx * s < 0 then WIDTH else o.x + o.vx * s) > WIDTH then 0
       else if o.x + o.vx * s < 0 then WIDTH else o.x + o.vx * s) := rfl

theorem update_y_eq (o : SkyObject) (s dz : ℚ) :
    (o.update s dz).y =
      (if (if o.y + o.vy * s < 0 then HEIGHT else o.y + o.vy * s) > HEIGHT then 0
       else if o.y + o.vy * s < 0 then HEIGHT else o.y + o.vy * s) := rfl

theorem update_z_eq (o : SkyObject) (s dz : ℚ) :
    (o.update s dz).z = max 0 (min 100 (o.z + dz)) := rfl

theorem update_trail_eq (o : SkyObject) (s dz : ℚ) :
    (o.update s dz).trail =
      (if (o.trail ++ [(o.x + o.vx * s, o.y + o.vy * s)]).length > 10
       then (o.trail ++ [(o.x + o.vx * s, o.y + o.vy * s)]).tail
       else o.trail ++ [(o.x + o.vx * s, o.y + o.vy * s)]) := rfl

/-- Claim C4: boundary-snap semantics.  If an update advances `x` strictly
beyond `width` the post-update `x` is exactly 0; if it advances `x` strictly
below 0 the post-update `x` is exactly `width`; symmetrically for `y`
against `height` — for every starting position, velocity and speed
multiplier. -/
theorem c4_boundary_snap (o : SkyObject) (s dz : ℚ) :
    (o.x + o.vx * s > WIDTH → (o.update s dz).x = 0) ∧
    (o.x + o.vx * s < 0 → (o.update s dz).x = WIDTH) ∧
    (o.y + o.vy * s > HEIGHT → (o.update s dz).y = 0) ∧
    (o.y + o.vy * s < 0 → (o.update s dz).y = HEIGHT) := by
  rw [update_x_eq, update_y_eq]
  simp only [WIDTH, HEIGHT]
  refine ⟨fun h => ?_, fun h => ?_, fun h => ?_, fun h => ?_⟩ <;>
    split_ifs <;> first | rfl | linarith

/-- Witness for C4: the four snap hypotheses hold at concrete inputs;
`wSnap` advanced with multiplier 1 overshoots both bounds, and with
multiplier -500 undershoots both. -/
theorem c4_boundary_snap_witness :
    (wSnap.update 1 0).x = 0 ∧ (wSnap.update 1 0).y = 0 ∧
    (wSnap.update (-500) 0).x = WIDTH ∧ (wSnap.update (-500) 0).y = HEIGHT :=
  ⟨(c4_boundary_snap wSnap 1 0).1 (by norm_num [wSnap, WIDTH]),
   (c4_boundary_snap wSnap 1 0).2.2.1 (by norm_num [wSnap, HEIGHT]),
   (c4_boundary_snap wSnap (-500) 0).2.1 (by norm_num [wSnap]),
   (c4_boundary_snap wSnap (-500) 0).2.2.2 (by norm_num [wSnap])⟩

/-- The snap of one axis always lands inside `[0, B]`. -/
theorem snap_bounds (B v : ℚ) (hB : 0 ≤ B) :
    0 ≤ (if (if v < 0 then B else v) > B then (0:ℚ) else if v < 0 then B else v) ∧
      (if (if v < 0 then B else v) > B then (0:ℚ) else if v < 0 then B else v) ≤ B := by
  by_cases h1 : v < 0
  · simp only [if_pos h1]
    simp only [if_neg (lt_irrefl B)]
    exact ⟨hB, le_refl B⟩
  · simp only [if_neg h1]
    by_cases h2 : v > B
    · simp only [if_pos h2]
      exact ⟨le_refl 0, hB⟩
    · simp only [if_neg h2]
      exact ⟨le_of_not_lt h1, le_of_not_lt h2⟩

/-- Claim C10: after every update the live position satisfies
`0 ≤ x ≤ width` and `0 ≤ y ≤ height` (closed intervals — the snap can
land exactly on `width` or `height`), for every starting state, velocity
and speed multiplier. -/
theorem c10_position_in_canvas (o : SkyObject) (s dz : ℚ) :
    (0 ≤ (o.update s dz).x ∧ (o.update s dz).x ≤ WIDTH) ∧
    (0 ≤ (o.update s dz).y ∧ (o.update s dz).y ≤ HEIGHT) := by
  rw [update_x_eq, update_y_eq]
  exact ⟨snap_bounds WIDTH _ (by norm_num [WIDTH]),
    snap_bounds HEIGHT _ (by norm_num [HEIGHT])⟩

/-- Claim C6: during a slider drag, a pointer at `slider_left` yields
exactly 0.5, a pointer at `slider_left + slider_width` yields exactly 3.0,
every pointer abscissa yields `0.5 + clamp((mx - slider_left)/slider_width,
0, 1) * 2.5`, and the result always lies in `[0.5, 3.0]`. -/
theorem c6_slider (mx : ℚ) :
    sliderSpeed SLIDER_X = 1 / 2 ∧
    sliderSpeed (SLIDER_X + SLIDER_W) = 3 ∧
    sliderSpeed mx = 1 / 2 + clamp 0 1 ((mx - SLIDER_X) / SLIDER_W) * (5 / 2) ∧
    1 / 2 ≤ sliderSpeed mx ∧ sliderSpeed mx ≤ 3 := by
  refine ⟨by norm_num [sliderSpeed, SLIDER_X, SLIDER_W],
    by norm_num [sliderSpeed, SLIDER_X, SLIDER_W], rfl, ?_, ?_⟩
  · have h1 : (0:ℚ) ≤ max 0 (min 1 ((mx - SLIDER_X) / SLIDER_W)) := le_max_left _ _
    simp only [sliderSpeed]
    nlinarith
  · have h1 : max 0 (min 1 ((mx - SLIDER_X) / SLIDER_W)) ≤ 1 :=
      max_le (by norm_num) (min_le_left _ _)
    simp only [sliderSpeed]
    nlinarith

/-- Claim C7: GROUND-mode horizontal mirroring.  For fixed `x` the WEST
screen abscissa is `width` minus the EAST one, the WEST mirror is
self-inverse, and toggling the direction twice restores the screen
abscissa. -/
theorem c7_ground_mirror (x : ℚ) (d : Direction) :
    groundSX Direction.WEST x = WIDTH - groundSX Direction.EAST x ∧
    groundSX Direction.WEST (groundSX Direction.WEST x) = x ∧
    groundSX (toggleDirection (toggleDirection d)) x = groundSX d x := by
  refine ⟨rfl, ?_, ?_⟩
  · simp [groundSX]
  · cases d <;> rfl

/-- Claim C9: frame conditions.  `update` leaves the velocity, id, type,
base color, movement behavior and scalar speed unchanged, and `draw`
returns the object with no field changed. -/
theorem c9_frame_conditions (o : SkyObject) (s dz : ℚ) (vm : ViewMode) (d : Direction) :
    ((o.update s dz).vx = o.vx ∧ (o.update s dz).vy = o.vy ∧
     (o.update s dz).id = o.id ∧ (o.update s dz).otype = o.otype ∧
     (o.update s dz).base_color = o.base_color ∧
     (o.update s dz).movement = o.movement ∧ (o.update s dz).speed = o.speed) ∧
    (o.draw vm d).2 = o := by
  refine ⟨⟨rfl, rfl, rfl, rfl, rfl, rfl, rfl⟩, ?_⟩
  cases vm <;> rfl

/-! Invariant lemmas for claim C2. -/

theorem update_z_bounds (o : SkyObject) (s dz : ℚ) :
    0 ≤ (o.update s dz).z ∧ (o.update s dz).z ≤ 100 := by
  rw [update_z_eq]
  exact ⟨le_max_left 0 _, max_le (by norm_num) (min_le_left 100 _)⟩

theorem update_trail_le (o : SkyObject) (s dz : ℚ) (h : o.trail.length ≤ 10) :
    (o.update s dz).trail.length ≤ 10 := by
  rw [update_trail_eq]
  split_ifs <;> simp [List.length_tail] at * <;> omega

theorem updateSeq_trail_le (steps : List (ℚ × ℚ)) :
    ∀ o : SkyObject, o.trail.length ≤ 10 → (o.updateSeq steps).trail.length ≤ 10 := by
  induction steps with
  | nil => exact fun o h => h
  | cons p rest ih =>
      intro o h
      obtain ⟨s, dz⟩ := p
      exact ih _ (update_trail_le o s dz h)

theorem updateSeq_z_bounds (steps : List (ℚ × ℚ)) :
    ∀ o : SkyObject, 0 ≤ o.z → o.z ≤ 100 →
      0 ≤ (o.updateSeq steps).z ∧ (o.updateSeq steps).z ≤ 100 := by
  induction steps with
  | nil => exact fun o h0 h1 => ⟨h0, h1⟩
  | cons p rest ih =>
      intro o h0 h1
      obtain ⟨s, dz⟩ := p
      have hz := update_z_bounds o s dz
      exact ih _ hz.1 hz.2

/-- Claim C2: for every spawned SkyObject and every nonempty sequence of
`update` calls (any speed multipliers, any depth draws), the depth stays
in `[0, 100]` and the trail holds at most 10 positions; quantifying over
all sequences covers the state after each call. -/
theorem c2_invariants (oid : ℕ) (t : Fin 5) (d : InitDraws)
    (p : ℚ × ℚ) (rest : List (ℚ × ℚ)) :
    (0 ≤ ((SkyObject.init oid t d).updateSeq (p :: rest)).z ∧
      ((SkyObject.init oid t d).updateSeq (p :: rest)).z ≤ 100) ∧
    ((SkyObject.init oid t d).updateSeq (p :: rest)).trail.length ≤ 10 := by
  obtain ⟨s, dz⟩ := p
  have h1 : (SkyObject.init oid t d).updateSeq ((s, dz) :: rest)
      = ((SkyObject.init oid t d).update s dz).updateSeq rest := rfl
  rw [h1]
  have hz := update_z_bounds (SkyObject.init oid t d) s dz
  refine ⟨updateSeq_z_bounds rest _ hz.1 hz.2, updateSeq_trail_le rest _ ?_⟩
  exact update_trail_le _ s dz (by norm_num [SkyObject.init])

/-- Claim C3 fails on the code: on the very first frame after spawning
exactly one update has run, so PLAN-mode `draw` hands the polyline
primitive a trail of exactly one point — below the primitive's minimum of
two — for every spawn draw, speed multiplier and depth draw. -/
theorem c3_first_frame_trail (oid : ℕ) (t : Fin 5) (d : InitDraws) (s dz : ℚ) :
    (((SkyObject.init oid t d).update s dz).draw ViewMode.PLAN Direction.EAST).1.trailLine
        = some [(d.x0 + d.cosA * d.speed0 * s, d.y0 + d.sinA * d.speed0 * s)] ∧
    ((SkyObject.init oid t d).update s dz).trail.length = 1 := ⟨rfl, rfl⟩

/-! Color attenuation, claim C8. -/

/-- Claim C8: color attenuation is monotone in depth.  For a fixed base
channel, depths `0 ≤ z1 ≤ z2 ≤ 100` give `displayChannel` values in the
valid channel range with the shallower depth never below the deeper one. -/
theorem c8_color_monotone (c : ℕ) (z1 z2 : ℚ)
    (h1 : 0 ≤ z1) (h12 : z1 ≤ z2) (h2 : z2 ≤ 100) :
    displayChannel c z2 ≤ displayChannel c z1 ∧
    (0 ≤ displayChannel c z2 ∧ displayChannel c z2 ≤ 255) ∧
    (0 ≤ displayChannel c z1 ∧ displayChannel c z1 ≤ 255) := by
  have hc : (0:ℚ) ≤ (c:ℚ) := Nat.cast_nonneg c
  have hv2 : 0 ≤ (c : ℚ) + (1 - z2 / 100) * 80 := by nlinarith
  have hv1 : 0 ≤ (c : ℚ) + (1 - z1 / 100) * 80 := by nlinarith
  have hmono : (c : ℚ) + (1 - z2 / 100) * 80 ≤ (c : ℚ) + (1 - z1 / 100) * 80 := by
    nlinarith
  simp only [displayChannel, pyInt, if_pos hv1, if_pos hv2]
  refine ⟨min_le_min (le_refl 255) (Int.floor_le_floor hmono),
    ⟨?_, min_le_left _ _⟩, ⟨?_, min_le_left _ _⟩⟩
  · exact le_min (by norm_num) (Int.le_floor.mpr (by exact_mod_cast hv2))
  · exact le_min (by norm_num) (Int.le_floor.mpr (by exact_mod_cast hv1))

/-- Witness for C8 at base channel 255 and depths 10 ≤ 50. -/
theorem c8_color_monotone_witness :
    displayChannel 255 50 ≤ displayChannel 255 10 ∧
    (0 ≤ displayChannel 255 (50:ℚ) ∧ displayChannel 255 (50:ℚ) ≤ 255) ∧
    (0 ≤ displayChannel 255 (10:ℚ) ∧ displayChannel 255 (10:ℚ) ≤ 255) :=
  c8_color_monotone 255 10 50 (by norm_num) (by norm_num) (by norm_num)

/-! The spawner, claims C1 and C5. -/

theorem spawnLoop_zero (total cap : ℕ) (choices : ℕ → Fin 5) (inits : ℕ → InitDraws)
    (objs : List SkyObject) (counts : Fin 5 → ℕ) (oid step : ℕ) :
    spawnLoop total cap choices inits 0 objs counts oid step =
      if objs.length < total then none else some objs := rfl

theorem spawnLoop_succ (total cap : ℕ) (choices : ℕ → Fin 5) (inits : ℕ → InitDraws)
    (fuel : ℕ) (objs : List SkyObject) (counts : Fin 5 → ℕ) (oid step : ℕ) :
    spawnLoop total cap choices inits (fuel + 1) objs counts oid step =
      if objs.length < total then
        (if counts (choices step) < cap then
          spawnLoop total cap choices inits fuel
            (objs ++ [SkyObject.init oid (choices step) (inits objs.length)])
            (fun t => if t = choices step then counts t + 1 else counts t)
            (oid + 1) (step + 1)
        else
          spawnLoop total cap choices inits fuel objs counts oid (step + 1))
      else some objs := rfl

theorem range_one_snoc (n : ℕ) :
    List.range' 1 (n + 1) = List.range' 1 n ++ [n + 1] := by
  simpa [Nat.add_comm] using @List.range'_concat 1 1 n

theorem countType_append (t : Fin 5) (l1 l2 : List SkyObject) :
    countType t (l1 ++ l2) = countType t l1 + countType t l2 := by
  simp [countType, List.countP_append]

theorem countType_init (t c : Fin 5) (oid : ℕ) (d : InitDraws) :
    countType t [SkyObject.init oid c d] = if t = c then 1 else 0 := by
  by_cases h : t = c <;>
    simp [countType, List.countP, List.countP.go, SkyObject.init, h, eq_comm]

/-- With the unsatisfiable configuration `total = 7`, `cap = 1` the loop
never exits: as long as every per-type count is at most 1 the population
holds at most 5 objects, so the loop condition stays true for every draw
stream and every fuel. -/
theorem spawnLoop_unsat_none (choices : ℕ → Fin 5) (inits : ℕ → InitDraws) :
    ∀ (fuel : ℕ) (objs : List SkyObject) (counts : Fin 5 → ℕ) (oid step : ℕ),
      (∀ t, counts t ≤ 1) →
      objs.length = counts 0 + counts 1 + counts 2 + counts 3 + counts 4 →
      spawnLoop 7 1 choices inits fuel objs counts oid step = none := by
  intro fuel
  induction fuel with
  | zero =>
      intro objs counts oid step hle hsum
      have hlen : objs.length < 7 := by
        have h0 := hle 0; have h1 := hle 1; have h2 := hle 2
        have h3 := hle 3; have h4 := hle 4
        omega
      rw [spawnLoop_zero, if_pos hlen]
  | succ fuel ih =>
      intro objs counts oid step hle hsum
      have hlen : objs.length < 7 := by
        have h0 := hle 0; have h1 := hle 1; have h2 := hle 2
        have h3 := hle 3; have h4 := hle 4
        omega
      rw [spawnLoop_succ, if_pos hlen]
      by_cases hc : counts (choices step) < 1
      · rw [if_pos hc]
        have hc0 : counts (choices step) = 0 := by omega
        apply ih
        · intro t
          by_cases ht : t = choices step
          · subst ht; simp [hc0]
          · simp [ht]; exact hle t
        · generalize hg : choices step = c at hc0
          fin_cases c <;> simp [List.length_append] <;> omega
      · rw [if_neg hc]
        exact ih objs counts oid (step + 1) hle hsum

/-- Claim C1 fails on the code: `spawn_objects` has no configuration-error
path, and with an unsatisfiable configuration (`total = 7`, `cap = 1`,
`1 × 5 < 7`) it never terminates — for every fuel and every draw stream
the loop is still running. -/
theorem c1_spawn_diverges (fuel : ℕ) (choices : ℕ → Fin 5) (inits : ℕ → InitDraws) :
    spawn_objects 7 1 choices inits fuel = none := by
  apply spawnLoop_unsat_none choices inits fuel [] (fun _ => 0) 1 0
  · intro t; exact Nat.zero_le 1
  · simp

/-- Soundness of the spawn loop: from any state satisfying the loop
invariant (counts agree with the population, stay below the cap, ids are
`1..len` in order and the next id is `len + 1`), a `some` result has
exactly `total` objects, per-type counts at most `cap`, and ids exactly
`1..total` in spawn order. -/
theorem spawnLoop_some_sound (total cap : ℕ) (choices : ℕ → Fin 5) (inits : ℕ → InitDraws) :
    ∀ (fuel : ℕ) (objs : List SkyObject) (counts : Fin 5 → ℕ) (oid step : ℕ)
      (res : List SkyObject),
      objs.length ≤ total →
      (∀ t, countType t objs = counts t) →
      (∀ t, counts t ≤ cap) →
      objs.map SkyObject.id = List.range' 1 objs.length →
      oid = objs.length + 1 →
      spawnLoop total cap choices inits fuel objs counts oid step = some res →
      res.length = total ∧ (∀ t, countType t res ≤ cap) ∧
        res.map SkyObject.id = List.range' 1 total := by
  intro fuel
  induction fuel with
  | zero =>
      intro objs counts oid step res hlen hcnt hcap hids hoid h
      rw [spawnLoop_zero] at h
      by_cases h1 : objs.length < total
      · rw [if_pos h1] at h
        exact absurd h (by simp)
      · rw [if_neg h1] at h
        obtain rfl : objs = res := Option.some.inj h
        have heq : objs.length = total := le_antisymm hlen (not_lt.mp h1)
        refine ⟨heq, fun t => ?_, ?_⟩
        · rw [hcnt t]
          exact hcap t
        · rw [← heq]
          exact hids
  | succ fuel ih =>
      intro objs counts oid step res hlen hcnt hcap hids hoid h
      rw [spawnLoop_succ] at h
      by_cases h1 : objs.length < total
      · rw [if_pos h1] at h
        by_cases h2 : counts (choices step) < cap
        · rw [if_pos h2] at h
          refine ih (objs ++ [SkyObject.init oid (choices step) (inits objs.length)])
            (fun t => if t = choices step then counts t + 1 else counts t)
            (oid + 1) (step + 1) res ?_ ?_ ?_ ?_ ?_ h
          · simp only [List.length_append, List.length_singleton]
            omega
          · intro t
            rw [countType_append, countType_init, hcnt t]
            by_cases ht : t = choices step <;> simp [ht]
          · intro t
            show (if t = choices step then counts t + 1 else counts t) ≤ cap
            by_cases ht : t = choices step
            · rw [if_pos ht]
              subst ht
              omega
            · rw [if_neg ht]
              exact hcap t
          · simp only [List.map_append, List.map_cons, List.map_nil,
              List.length_append, List.length_singleton]
            rw [hids]
            have huid : (SkyObject.init oid (choices step) (inits objs.length)).id = oid := rfl
            rw [huid, hoid, range_one_snoc]
          · simp only [List.length_append, List.length_singleton]
            omega
        · rw [if_neg h2] at h
          exact ih objs counts oid (step + 1) res hlen hcnt hcap hids hoid h
      · rw [if_neg h1] at h
        obtain rfl : objs = res := Option.some.inj h
        have heq : objs.length = total := le_antisymm hlen (not_lt.mp h1)
        refine ⟨heq, fun t => ?_, ?_⟩
        · rw [hcnt t]
          exact hcap t
        · rw [← heq]
          exact hids

/-- Claim C5: whenever `spawn_objects` returns a population (in
particular for the satisfiable source configuration `total = 7`,
`cap = 4`), it has exactly `total` objects, no type occurs more than
`cap` times, and the ids are exactly `1..total` in spawn order. -/
theorem c5_spawn_correct (total cap : ℕ) (choices : ℕ → Fin 5) (inits : ℕ → InitDraws)
    (fuel : ℕ) (objs : List SkyObject)
    (h : spawn_objects total cap choices inits fuel = some objs) :
    objs.length = total ∧ (∀ t, countType t objs ≤ cap) ∧
      objs.map SkyObject.id = List.range' 1 total :=
  spawnLoop_some_sound total cap choices inits fuel [] (fun _ => 0) 1 0 objs
    (by simp) (fun t => by simp [countType]) (fun t => Nat.zero_le cap)
    (by simp) (by simp) h

/-- Witness for C5: the cycling draw stream with configuration
`total = 7`, `cap = 4` terminates within fuel 7 and yields `wObjs`. -/
theorem c5_spawn_correct_witness :
    wObjs.length = 7 ∧ (∀ t, countType t wObjs ≤ 4) ∧
      wObjs.map SkyObject.id = List.range' 1 7 :=
  c5_spawn_correct 7 4 wChoices wInits 7 wObjs
    (by simp [spawn_objects, spawnLoop, wChoices, wObjs])
